import Mathlib

/-!
Verification of the traffic simulation engine
(`backend/app/simulation/engine.py`) against its natural-language
specification.  The engine's data model and the operations the claims
concern are embedded shallowly: Python floats become exact rationals,
Python lists become Lean lists, and the in-place mutation of the
engine's state becomes explicit state passing.  The geometric helper
`_calculate_distance` (a haversine approximation built on `math.cos`,
`math.sqrt`) is kept abstract as a function parameter `dist`; every
theorem that needs a fact about it (non-negativity, or its value `0`
at coincident points) takes that fact as a hypothesis or instantiates
it concretely.
-/

namespace TrafficSim

/-- Geographic coordinate pair, embedding `Coordinates` from
`backend/app/models/traffic.py` (fields `lat`, `lng`). -/
structure Coordinates where
  lat : ℚ
  lng : ℚ
deriving DecidableEq, Repr

/-- Driver behaviour profile, embedding the `DriverProfile` enum. -/
inductive DriverProfile where
  | aggressive
  | normal
  | cautious
  | learner
deriving DecidableEq, Repr

/-- Vehicle class, embedding the `VehicleType` enum. -/
inductive VehicleType where
  | car
  | truck
  | motorcycle
  | bus
  | emergency
deriving DecidableEq, Repr

/-- Simulated vehicle, embedding `SimulatedVehicle` from
`backend/app/models/traffic.py` (the fields the engine reads/writes). -/
structure SimulatedVehicle where
  id : String
  vehicle_type : VehicleType
  driver_profile : DriverProfile
  position : Coordinates
  heading : ℚ
  current_speed : ℚ
  target_speed : ℚ
  current_segment_id : Option String
  waiting_at_light : Bool
  wait_time_seconds : ℚ
deriving DecidableEq, Repr

/-- Traffic incident, embedding `TrafficIncident` (the fields read by
`_get_incident_effect`: `id`, `type`, `location`). -/
structure TrafficIncident where
  id : String
  type : String
  location : Coordinates
deriving DecidableEq, Repr

/-- Category-specific influence radius table of `_get_incident_effect`
(engine.py lines 215-222): `impact_radii.get(incident.type, 0.002)`. -/
def impactRadius (t : String) : ℚ :=
  if t = "accident" then 0.002
  else if t = "construction" then 0.003
  else if t = "closure" then 0.005
  else if t = "slowdown" then 0.001
  else if t = "event" then 0.002
  else 0.002

/-- Category-specific value table of `_get_incident_effect`
(engine.py lines 229-236): `speed_reductions.get(incident.type, 0.5)`.
The values are transcribed exactly as the code has them, including the
entry `closure -> 0.0` whose inline comment reads "Complete stop". -/
def speedReduction (t : String) : ℚ :=
  if t = "accident" then 0.3
  else if t = "construction" then 0.5
  else if t = "closure" then 0.0
  else if t = "slowdown" then 0.7
  else if t = "event" then 0.4
  else 0.5

/-- One iteration of the incident loop in `_get_incident_effect`
(engine.py lines 211-242), folding the running minimum ceiling. -/
def incidentStep (dist : Coordinates → Coordinates → ℚ) (v : SimulatedVehicle)
    (minSpeed : Option ℚ) (incident : TrafficIncident) : Option ℚ :=
  let distance := dist v.position incident.location
  let radius := impactRadius incident.type
  if distance < radius then
    let distance_factor := 1 - distance / radius
    let reduction := speedReduction incident.type
    let affected_speed := v.target_speed * (1 - reduction * distance_factor)
    match minSpeed with
    | none => some affected_speed
    | some m => if affected_speed < m then some affected_speed else some m
  else minSpeed

/-- Embedding of `SimulationEngine._get_incident_effect` (engine.py
lines 204-244): scan all active incidents and return the most
restrictive speed ceiling, or `none` when no incident is in range.
`dist` stands for the engine's `_calculate_distance`. -/
def getIncidentEffect (dist : Coordinates → Coordinates → ℚ)
    (incidents : List TrafficIncident) (v : SimulatedVehicle) : Option ℚ :=
  incidents.foldl (incidentStep dist v) none

/-- Concrete vehicle placed exactly at the closure incident below. -/
def closureVehicle : SimulatedVehicle :=
  { id := "v1"
  , vehicle_type := VehicleType.car
  , driver_profile := DriverProfile.normal
  , position := { lat := 0, lng := 0 }
  , heading := 0
  , current_speed := 40
  , target_speed := 50
  , current_segment_id := none
  , waiting_at_light := false
  , wait_time_seconds := 0 }

/-- Concrete active incident of category "closure" at the vehicle's
position, so the code's distance between the two points is `0`. -/
def closureIncident : TrafficIncident :=
  { id := "i1", type := "closure", location := { lat := 0, lng := 0 } }

/-- Emissions estimate record, embedding `EmissionsEstimate` from
`backend/app/models/traffic.py`. -/
structure EmissionsEstimate where
  co2_kg_per_hour : ℚ
  nox_grams_per_hour : ℚ
  fuel_liters_per_hour : ℚ
  avg_co2_per_vehicle : ℚ
  avg_fuel_per_vehicle : ℚ
deriving DecidableEq, Repr

/-- Embedding of `SimulationEngine.calculate_emissions` (engine.py
lines 754-797).  Inputs are `len(self.state.vehicles)` and the stored
metric `self.state.average_speed`; the Python truthiness test
`self.state.average_speed or 30` becomes the test against `0`. -/
def calculateEmissions (total_vehicles : ℕ) (average_speed : ℚ) :
    EmissionsEstimate :=
  if total_vehicles = 0 then
    { co2_kg_per_hour := 0
    , nox_grams_per_hour := 0
    , fuel_liters_per_hour := 0
    , avg_co2_per_vehicle := 0
    , avg_fuel_per_vehicle := 0 }
  else
    let avg_speed : ℚ := if average_speed = 0 then 30 else average_speed
    let speed_factor : ℚ := 1 + |avg_speed - 60| / 60
    let base_co2_kg := 0.12 * speed_factor
    let base_fuel_l := 0.08 * speed_factor
    let base_nox_g := 0.5 * speed_factor
    let km_per_hour := avg_speed
    let co2_total := base_co2_kg * km_per_hour * (total_vehicles : ℚ)
    let fuel_total := base_fuel_l * km_per_hour * (total_vehicles : ℚ)
    let nox_total := base_nox_g * km_per_hour * (total_vehicles : ℚ)
    { co2_kg_per_hour := co2_total
    , nox_grams_per_hour := nox_total
    , fuel_liters_per_hour := fuel_total
    , avg_co2_per_vehicle := co2_total / (total_vehicles : ℚ)
    , avg_fuel_per_vehicle := fuel_total / (total_vehicles : ℚ) }

/-- Table lookup of the "closure" influence radius, by evaluation. -/
theorem impactRadius_closure : impactRadius ("closure") = 0.005 := by
  unfold impactRadius
  rw [if_neg (by decide), if_neg (by decide)]
  norm_num

/-- Table lookup of the "closure" reduction value, by evaluation. -/
theorem speedReduction_closure : speedReduction ("closure") = 0 := by
  unfold speedReduction
  rw [if_neg (by decide), if_neg (by decide)]
  norm_num

/-- C1: the code contradicts the claim (and its own inline comment
"Complete stop").  For a vehicle at distance 0 from an active
"closure" incident with `target_speed = 50`, `_get_incident_effect`
returns the unreduced `target_speed` (the table entry for "closure"
is `0.0`, so `target_speed * (1 - 0.0 * 1.0) = target_speed`), not
`target_speed * (1 - 1.0) = 0` as the claim requires.  The distance
function is instantiated with the constant `0`, the value the code's
`_calculate_distance` takes at coincident points. -/
theorem closure_effect_is_unreduced_target_speed :
    getIncidentEffect (fun _ _ => 0) [closureIncident] closureVehicle
      = some closureVehicle.target_speed
    ∧ getIncidentEffect (fun _ _ => 0) [closureIncident] closureVehicle
      ≠ some (closureVehicle.target_speed * (1 - 1)) := by
  constructor <;>
    norm_num [getIncidentEffect, incidentStep, impactRadius_closure,
      speedReduction_closure, closureIncident, closureVehicle]

/-- C9: over an empty vehicle set, `calculate_emissions` returns the
all-zero estimate, for every stored average speed. -/
theorem emissions_empty_all_zero (avg : ℚ) :
    calculateEmissions 0 avg =
      { co2_kg_per_hour := 0
      , nox_grams_per_hour := 0
      , fuel_liters_per_hour := 0
      , avg_co2_per_vehicle := 0
      , avg_fuel_per_vehicle := 0 } := rfl

/-- C8 counterexample: with one vehicle and stored average speed 0 the
claim predicts hourly CO2 `0.12 * (1 + |0-60|/60) * 0 * 1 = 0`, but the
code substitutes 30 km/h for a falsy average (`avg_speed or 30`) and
returns `0.12 * 1.5 * 30 * 1 = 27/5`. -/
theorem emissions_zero_average_counterexample :
    (calculateEmissions 1 0).co2_kg_per_hour = 27 / 5
    ∧ (calculateEmissions 1 0).co2_kg_per_hour
      ≠ 0.12 * (1 + |(0 : ℚ) - 60| / 60) * 0 * 1 := by
  constructor <;> norm_num [calculateEmissions]

/-- C8 (amended): for a non-empty vehicle set whose stored average
speed is non-zero, the hourly totals equal the fixed per-km factors
(CO2 0.12, fuel 0.08, NOx 0.5) times the deviation factor
`1 + |avg - 60| / 60`, times the average speed, times the vehicle
count, and the per-vehicle averages are those totals divided by the
count. -/
theorem emissions_formula (n : ℕ) (avg : ℚ) (hn : n ≠ 0) (havg : avg ≠ 0) :
    (calculateEmissions n avg).co2_kg_per_hour
        = 0.12 * (1 + |avg - 60| / 60) * avg * (n : ℚ)
    ∧ (calculateEmissions n avg).fuel_liters_per_hour
        = 0.08 * (1 + |avg - 60| / 60) * avg * (n : ℚ)
    ∧ (calculateEmissions n avg).nox_grams_per_hour
        = 0.5 * (1 + |avg - 60| / 60) * avg * (n : ℚ)
    ∧ (calculateEmissions n avg).avg_co2_per_vehicle
        = 0.12 * (1 + |avg - 60| / 60) * avg * (n : ℚ) / (n : ℚ)
    ∧ (calculateEmissions n avg).avg_fuel_per_vehicle
        = 0.08 * (1 + |avg - 60| / 60) * avg * (n : ℚ) / (n : ℚ) := by
  unfold calculateEmissions
  rw [if_neg hn, if_neg havg]
  exact ⟨rfl, rfl, rfl, rfl, rfl⟩

/-- C8 witness: the amended formula evaluated at 2 vehicles with
average speed 30 km/h: CO2 total `0.12 * 1.5 * 30 * 2 = 54/5`. -/
theorem emissions_formula_witness :
    (2 : ℕ) ≠ 0 ∧ (30 : ℚ) ≠ 0
    ∧ (calculateEmissions 2 30).co2_kg_per_hour
        = 0.12 * (1 + |(30 : ℚ) - 60| / 60) * 30 * ((2 : ℕ) : ℚ) :=
  ⟨by norm_num, by norm_num,
    (emissions_formula 2 30 (by norm_num) (by norm_num)).1⟩

/-- Traffic light phase, embedding the `TrafficLightPhase` enum. -/
inductive TrafficLightPhase where
  | RED
  | GREEN
  | YELLOW
deriving DecidableEq, Repr

/-- Traffic light, embedding `TrafficLight` from
`backend/app/models/traffic.py` (the fields the engine reads/writes). -/
structure TrafficLight where
  id : String
  location : Coordinates
  current_phase : TrafficLightPhase
  green_duration : ℚ
  yellow_duration : ℚ
  red_duration : ℚ
  time_in_current_phase : ℚ
  controlled_segment_ids : List String
deriving DecidableEq, Repr

/-- Intersection, embedding `Intersection` (the fields the engine
reads: identity, location, owned lights). -/
structure Intersection where
  id : String
  location : Coordinates
  traffic_lights : List TrafficLight
deriving DecidableEq, Repr

/-- Base duration lookup of `_update_traffic_lights` (engine.py lines
564-568): the configured duration of the current phase. -/
def baseDuration (l : TrafficLight) : ℚ :=
  match l.current_phase with
  | TrafficLightPhase.RED => l.red_duration
  | TrafficLightPhase.YELLOW => l.yellow_duration
  | TrafficLightPhase.GREEN => l.green_duration

/-- Embedding of the per-light body of
`SimulationEngine._update_traffic_lights` (engine.py lines 560-585):
advance elapsed time by `dt`, possibly extend a GREEN phase when more
than 5 vehicles are waiting, and transition RED→GREEN, YELLOW→RED,
GREEN→YELLOW with the elapsed time reset to 0 once the effective
duration is reached. -/
def updateTrafficLight (dt : ℚ) (waiting_count : ℕ) (l : TrafficLight) :
    TrafficLight :=
  let l1 := { l with time_in_current_phase := l.time_in_current_phase + dt }
  let base_phase_duration := baseDuration l1
  let phase_duration :=
    if l1.current_phase = TrafficLightPhase.GREEN ∧ 5 < waiting_count then
      base_phase_duration * (1 + min 0.5 ((waiting_count : ℚ) * 0.05))
    else base_phase_duration
  if phase_duration ≤ l1.time_in_current_phase then
    match l1.current_phase with
    | TrafficLightPhase.RED =>
        { l1 with current_phase := TrafficLightPhase.GREEN
                , time_in_current_phase := 0 }
    | TrafficLightPhase.YELLOW =>
        { l1 with current_phase := TrafficLightPhase.RED
                , time_in_current_phase := 0 }
    | TrafficLightPhase.GREEN =>
        { l1 with current_phase := TrafficLightPhase.YELLOW
                , time_in_current_phase := 0 }
  else l1

/-- Successor in the strict RED→GREEN→YELLOW→RED cycle. -/
def nextPhase : TrafficLightPhase → TrafficLightPhase
  | TrafficLightPhase.RED => TrafficLightPhase.GREEN
  | TrafficLightPhase.GREEN => TrafficLightPhase.YELLOW
  | TrafficLightPhase.YELLOW => TrafficLightPhase.RED

/-- C3: in every light-update step the phase either stays put or moves
one step along the strict cycle RED→GREEN→YELLOW→RED, the elapsed time
stays non-negative, and whenever the phase changes the elapsed time is
reset to exactly 0. -/
theorem light_update_strict_cycle (dt : ℚ) (waiting_count : ℕ)
    (l : TrafficLight) (hdt : 0 ≤ dt) (ht : 0 ≤ l.time_in_current_phase) :
    ((updateTrafficLight dt waiting_count l).current_phase = l.current_phase
      ∨ (updateTrafficLight dt waiting_count l).current_phase
          = nextPhase l.current_phase)
    ∧ 0 ≤ (updateTrafficLight dt waiting_count l).time_in_current_phase
    ∧ ((updateTrafficLight dt waiting_count l).current_phase
          ≠ l.current_phase →
        (updateTrafficLight dt waiting_count l).time_in_current_phase = 0) := by
  obtain ⟨lid, lloc, ph, g, y, rr, t, segs⟩ := l
  simp only [updateTrafficLight, baseDuration] at ht ⊢
  cases ph <;> dsimp only <;> split <;> split <;>
    first
      | exact ⟨Or.inr rfl, le_refl 0, fun _ => rfl⟩
      | exact ⟨Or.inl rfl, add_nonneg ht hdt, fun hc => absurd rfl hc⟩

/-- Concrete RED light used to witness the light-update theorem. -/
def witnessLight : TrafficLight :=
  { id := "L1"
  , location := { lat := 0, lng := 0 }
  , current_phase := TrafficLightPhase.RED
  , green_duration := 30
  , yellow_duration := 5
  , red_duration := 30
  , time_in_current_phase := 29.95
  , controlled_segment_ids := [] }

/-- C3 witness: a RED light with 30 s configured, 29.95 s elapsed and
`dt = 0.1 s` satisfies the cycle property (it transitions to GREEN). -/
theorem light_update_strict_cycle_witness :
    (0 : ℚ) ≤ 0.1 ∧ (0 : ℚ) ≤ witnessLight.time_in_current_phase
    ∧ ((updateTrafficLight 0.1 0 witnessLight).current_phase
        = witnessLight.current_phase
      ∨ (updateTrafficLight 0.1 0 witnessLight).current_phase
        = nextPhase witnessLight.current_phase) := by
  refine ⟨by norm_num, by norm_num [witnessLight], ?_⟩
  exact (light_update_strict_cycle 0.1 0 witnessLight (by norm_num)
    (by norm_num [witnessLight])).1

/-- Overwrite exactly the supplied (non-`None`) duration fields of one
light, embedding the three `if ... is not None` assignments of
`adjust_traffic_light_timing` (engine.py lines 603-608). -/
def applyTiming (g y r : Option ℚ) (l : TrafficLight) : TrafficLight :=
  { l with
    green_duration := g.getD l.green_duration
  , yellow_duration := y.getD l.yellow_duration
  , red_duration := r.getD l.red_duration }

/-- Inner loop of `adjust_traffic_light_timing` over one intersection's
lights: update the first light whose id matches and report success, or
`none` when no light in the list matches. -/
def adjustLightsIn (light_id : String) (g y r : Option ℚ) :
    List TrafficLight → Option (List TrafficLight)
  | [] => none
  | l :: rest =>
    if l.id = light_id then some (applyTiming g y r l :: rest)
    else
      match adjustLightsIn light_id g y r rest with
      | some rest2 => some (l :: rest2)
      | none => none

/-- Embedding of `SimulationEngine.adjust_traffic_light_timing`
(engine.py lines 587-611): scan intersections in order, update the
first light with the given id and return `True`; return `False` with
the state untouched when no light matches. -/
def adjustTrafficLightTiming (light_id : String) (g y r : Option ℚ) :
    List Intersection → Bool × List Intersection
  | [] => (false, [])
  | i :: rest =>
    match adjustLightsIn light_id g y r i.traffic_lights with
    | some ls2 => (true, { i with traffic_lights := ls2 } :: rest)
    | none =>
      let p := adjustTrafficLightTiming light_id g y r rest
      (p.1, i :: p.2)

/-- Intersection with every light of the given id retimed; with
distinct light ids this describes the effect of a successful
`adjust_traffic_light_timing` call. -/
def adjustMatching (light_id : String) (g y r : Option ℚ)
    (i : Intersection) : Intersection :=
  { i with traffic_lights :=
      i.traffic_lights.map (fun l =>
        if l.id = light_id then applyTiming g y r l else l) }

/-- All light ids across a list of intersections, in iteration order. -/
def allLightIds : List Intersection → List String
  | [] => []
  | i :: rest => i.traffic_lights.map (fun l => l.id) ++ allLightIds rest

/-- When no light in the list matches, the inner scan reports `none`. -/
theorem adjustLightsIn_none (light_id : String) (g y r : Option ℚ)
    (ls : List TrafficLight) (h : ∀ l ∈ ls, l.id ≠ light_id) :
    adjustLightsIn light_id g y r ls = none := by
  induction ls with
  | nil => rfl
  | cons l rest ih =>
    rw [adjustLightsIn, if_neg (h l (List.mem_cons_self l rest)),
      ih (fun l2 hl2 => h l2 (List.mem_cons_of_mem l hl2))]

/-- When no light in the list matches, the retiming map is a no-op. -/
theorem map_applyTiming_id (light_id : String) (g y r : Option ℚ)
    (ls : List TrafficLight) (h : ∀ l ∈ ls, l.id ≠ light_id) :
    ls.map (fun l => if l.id = light_id then applyTiming g y r l else l)
      = ls := by
  induction ls with
  | nil => rfl
  | cons l rest ih =>
    simp only [List.map]
    rw [if_neg (h l (List.mem_cons_self l rest)),
      ih (fun l2 hl2 => h l2 (List.mem_cons_of_mem l hl2))]

/-- A light id present in some intersection of the list is present in
`allLightIds`. -/
theorem mem_allLightIds (s : String) (rest : List Intersection) :
    ∀ i2 ∈ rest, ∀ l2 ∈ i2.traffic_lights, l2.id = s →
      s ∈ allLightIds rest := by
  induction rest with
  | nil => intro i2 h; cases h
  | cons j rest ih =>
    intro i2 hi2 l2 hl2 hid
    rw [allLightIds, List.mem_append]
    rcases List.mem_cons.mp hi2 with h1 | h2
    · subst h1
      exact Or.inl (hid ▸ List.mem_map_of_mem (fun l => l.id) hl2)
    · exact Or.inr (ih i2 h2 l2 hl2 hid)

/-- With distinct ids, the inner scan that finds a match returns the
whole list with exactly the matching light retimed. -/
theorem adjustLightsIn_found (light_id : String) (g y r : Option ℚ)
    (ls : List TrafficLight) (hnd : (ls.map (fun l => l.id)).Nodup)
    (h : ∃ l ∈ ls, l.id = light_id) :
    adjustLightsIn light_id g y r ls
      = some (ls.map
          (fun l => if l.id = light_id then applyTiming g y r l else l)) := by
  induction ls with
  | nil =>
    rcases h with ⟨l, hl, _⟩
    exact absurd hl (List.not_mem_nil l)
  | cons l rest ih =>
    simp only [List.map, List.nodup_cons] at hnd
    obtain ⟨hnotin, hnd2⟩ := hnd
    by_cases hl : l.id = light_id
    · have hrest : ∀ l2 ∈ rest, l2.id ≠ light_id := by
        intro l2 hl2 hid
        exact hnotin (hl.trans hid.symm ▸
          List.mem_map_of_mem (fun l => l.id) hl2)
      rw [adjustLightsIn, if_pos hl]
      simp only [List.map]
      rw [if_pos hl, map_applyTiming_id light_id g y r rest hrest]
    · have hexrest : ∃ l0 ∈ rest, l0.id = light_id := by
        rcases h with ⟨l0, hl0, hid0⟩
        rcases List.mem_cons.mp hl0 with h1 | h2
        · exact absurd (h1 ▸ hid0) hl
        · exact ⟨l0, h2, hid0⟩
      rw [adjustLightsIn, if_neg hl, ih hnd2 hexrest]
      simp only [List.map]
      rw [if_neg hl]

/-- When no intersection holds a matching light, the retiming map over
intersections is a no-op. -/
theorem map_adjustMatching_id (light_id : String) (g y r : Option ℚ)
    (rest : List Intersection)
    (h : ∀ i ∈ rest, ∀ l ∈ i.traffic_lights, l.id ≠ light_id) :
    rest.map (adjustMatching light_id g y r) = rest := by
  induction rest with
  | nil => rfl
  | cons i rest2 ih =>
    simp only [List.map]
    rw [ih (fun i2 hi2 => h i2 (List.mem_cons_of_mem i hi2))]
    unfold adjustMatching
    rw [map_applyTiming_id light_id g y r i.traffic_lights
      (h i (List.mem_cons_self i rest2))]

/-- Unknown id: the call reports not-found and mutates nothing. -/
theorem adjust_notfound (light_id : String) (g y r : Option ℚ)
    (inters : List Intersection)
    (h : ∀ i ∈ inters, ∀ l ∈ i.traffic_lights, l.id ≠ light_id) :
    adjustTrafficLightTiming light_id g y r inters = (false, inters) := by
  induction inters with
  | nil => rfl
  | cons i rest ih =>
    rw [adjustTrafficLightTiming,
      adjustLightsIn_none light_id g y r i.traffic_lights
        (h i (List.mem_cons_self i rest)),
      ih (fun i2 hi2 => h i2 (List.mem_cons_of_mem i hi2))]

/-- Known id (all light ids distinct): the call reports found and
retimes exactly the matching light. -/
theorem adjust_found (light_id : String) (g y r : Option ℚ)
    (inters : List Intersection) (hnd : (allLightIds inters).Nodup)
    (h : ∃ i ∈ inters, ∃ l ∈ i.traffic_lights, l.id = light_id) :
    adjustTrafficLightTiming light_id g y r inters
      = (true, inters.map (adjustMatching light_id g y r)) := by
  induction inters with
  | nil =>
    rcases h with ⟨i, hi, _⟩
    exact absurd hi (List.not_mem_nil i)
  | cons i rest ih =>
    rw [allLightIds, List.nodup_append] at hnd
    obtain ⟨hnd1, hnd2, hdisj⟩ := hnd
    by_cases hi : ∃ l ∈ i.traffic_lights, l.id = light_id
    · rw [adjustTrafficLightTiming,
        adjustLightsIn_found light_id g y r i.traffic_lights hnd1 hi]
      have hrest : ∀ i2 ∈ rest, ∀ l2 ∈ i2.traffic_lights,
          l2.id ≠ light_id := by
        intro i2 hi2 l2 hl2 hid
        rcases hi with ⟨l, hl, hlid⟩
        exact hdisj (hlid ▸ List.mem_map_of_mem (fun l => l.id) hl)
          (mem_allLightIds light_id rest i2 hi2 l2 hl2 hid)
      simp only [List.map]
      rw [map_adjustMatching_id light_id g y r rest hrest]
      rfl
    · push_neg at hi
      have hexrest : ∃ i2 ∈ rest, ∃ l2 ∈ i2.traffic_lights,
          l2.id = light_id := by
        rcases h with ⟨i0, hi0, l0, hl0, hid0⟩
        rcases List.mem_cons.mp hi0 with h1 | h2
        · exact absurd hid0 (hi l0 (h1 ▸ hl0))
        · exact ⟨i0, h2, l0, hl0, hid0⟩
      rw [adjustTrafficLightTiming,
        adjustLightsIn_none light_id g y r i.traffic_lights hi,
        ih hnd2 hexrest]
      simp only [List.map]
      unfold adjustMatching
      rw [map_applyTiming_id light_id g y r i.traffic_lights hi]

/-- C5: `adjust_traffic_light_timing` with an unknown light identity
returns not-found (`False`) and leaves every light's durations (and
everything else) untouched; with a known identity (light ids being
distinct) it returns `True` and overwrites exactly the supplied
duration fields of exactly that light. -/
theorem adjust_traffic_light_timing_spec (light_id : String)
    (g y r : Option ℚ) (inters : List Intersection) :
    ((∀ i ∈ inters, ∀ l ∈ i.traffic_lights, l.id ≠ light_id) →
        adjustTrafficLightTiming light_id g y r inters = (false, inters))
    ∧ ((allLightIds inters).Nodup →
        (∃ i ∈ inters, ∃ l ∈ i.traffic_lights, l.id = light_id) →
        adjustTrafficLightTiming light_id g y r inters
          = (true, inters.map (adjustMatching light_id g y r))) :=
  ⟨adjust_notfound light_id g y r inters,
    adjust_found light_id g y r inters⟩

/-- Concrete light for the timing-adjustment witness. -/
def lightA : TrafficLight :=
  { id := "LA"
  , location := { lat := 0, lng := 0 }
  , current_phase := TrafficLightPhase.RED
  , green_duration := 30
  , yellow_duration := 5
  , red_duration := 30
  , time_in_current_phase := 0
  , controlled_segment_ids := [] }

/-- Concrete intersection for the timing-adjustment witness. -/
def interA : Intersection :=
  { id := "I1", location := { lat := 0, lng := 0 }
  , traffic_lights := [lightA] }

/-- C5 witness: on the one-light state, an unknown id reports
not-found and changes nothing, while the id "LA" reports found and
retimes that light. -/
theorem adjust_traffic_light_timing_witness :
    adjustTrafficLightTiming ("nope") (some 10) none none [interA]
      = (false, [interA])
    ∧ adjustTrafficLightTiming ("LA") (some 10) none none [interA]
      = (true, [interA].map (adjustMatching ("LA") (some 10) none none)) := by
  constructor
  · exact (adjust_traffic_light_timing_spec ("nope") (some 10) none none
      [interA]).1 (by
        intro i hi l hl
        simp only [List.mem_singleton] at hi
        subst hi
        simp only [interA, List.mem_singleton] at hl
        subst hl
        simp [lightA])
  · exact (adjust_traffic_light_timing_spec ("LA") (some 10) none none
      [interA]).2 (by simp [allLightIds, interA, lightA])
      ⟨interA, List.mem_singleton.mpr rfl,
        lightA, by simp [interA], rfl⟩

/-- Embedding of `SimulationEngine._spawn_vehicles` (engine.py lines
325-333): when the active count has reached `max_vehicles` nothing
happens; otherwise one Bernoulli trial (`random() < spawn_rate * dt`,
abstracted as `trial_success`) appends one freshly created vehicle. -/
def spawnVehicles (max_vehicles : ℕ) (trial_success : Bool)
    (new_vehicle : SimulatedVehicle) (vehicles : List SimulatedVehicle) :
    List SimulatedVehicle :=
  if max_vehicles ≤ vehicles.length then vehicles
  else if trial_success then vehicles ++ [new_vehicle]
  else vehicles

/-- Scenario iteration of the spawn phase with `max_vehicles = 5` and
every spawn trial forced to succeed (`spawn_rate = 1.0`, `dt = 0.1 s`
in the spec scenario); `supply` provides the created vehicles. -/
def spawnTicks (supply : ℕ → SimulatedVehicle) : ℕ → List SimulatedVehicle
  | 0 => []
  | n + 1 => spawnVehicles 5 true (supply n) (spawnTicks supply n)

/-- Count-relevant shape of one whole tick: the spawn phase is the only
phase of `tick` that adds vehicles; every later phase either rewrites
vehicles in place or removes some (per-vehicle eviction and the despawn
phase), which is a filter. -/
def spawnThenFilter (max_vehicles : ℕ)
    (step : (Bool × SimulatedVehicle) × (SimulatedVehicle → Bool))
    (vehicles : List SimulatedVehicle) : List SimulatedVehicle :=
  (spawnVehicles max_vehicles step.1.1 step.1.2 vehicles).filter step.2

/-- The spawn phase never pushes the count past `max_vehicles` when it
was within the bound before. -/
theorem spawnVehicles_length_le_max (max_vehicles : ℕ) (trial : Bool)
    (nv : SimulatedVehicle) (vs : List SimulatedVehicle)
    (hv : vs.length ≤ max_vehicles) :
    (spawnVehicles max_vehicles trial nv vs).length ≤ max_vehicles := by
  unfold spawnVehicles
  split
  · exact hv
  · split
    · simp only [List.length_append, List.length_singleton]
      omega
    · exact hv

/-- Closed form of the forced-success scenario: after `n` ticks the
count is `min n 5`. -/
theorem spawnTicks_length (supply : ℕ → SimulatedVehicle) (n : ℕ) :
    (spawnTicks supply n).length = min n 5 := by
  induction n with
  | zero => rfl
  | succ n ih =>
    rw [spawnTicks]
    unfold spawnVehicles
    by_cases hge : 5 ≤ (spawnTicks supply n).length
    · rw [if_pos hge]
      rw [ih] at hge ⊢
      omega
    · rw [if_neg hge, if_pos rfl]
      simp only [List.length_append, List.length_cons, List.length_nil, ih]
        at hge ⊢
      omega

/-- C6: the spawn phase adds at most one vehicle per tick, adds only
when the count is strictly below the configured maximum, never drives
the count past the maximum across any sequence of ticks (each tick
being a spawn followed by in-place updates and removals), and in the
forced-success scenario with `max_vehicles = 5` the count is `min n 5`
after `n` ticks, hence exactly 5 from tick 5 on. -/
theorem spawn_phase_bounds (max_vehicles : ℕ) (trial : Bool)
    (nv : SimulatedVehicle) (vs : List SimulatedVehicle)
    (supply : ℕ → SimulatedVehicle) :
    (spawnVehicles max_vehicles trial nv vs).length ≤ vs.length + 1
    ∧ (max_vehicles ≤ vs.length → spawnVehicles max_vehicles trial nv vs = vs)
    ∧ (vs.length ≤ max_vehicles →
        (spawnVehicles max_vehicles trial nv vs).length ≤ max_vehicles)
    ∧ (∀ steps : List ((Bool × SimulatedVehicle) × (SimulatedVehicle → Bool)),
        vs.length ≤ max_vehicles →
        (steps.foldl (fun l s => spawnThenFilter max_vehicles s l) vs).length
          ≤ max_vehicles)
    ∧ (∀ n, (spawnTicks supply n).length = min n 5)
    ∧ (∀ n, 5 ≤ n → (spawnTicks supply n).length = 5) := by
  refine ⟨?_, ?_, ?_, ?_, spawnTicks_length supply, ?_⟩
  · unfold spawnVehicles
    split
    · omega
    · split
      · simp only [List.length_append, List.length_cons, List.length_nil]
        omega
      · omega
  · intro h
    unfold spawnVehicles
    rw [if_pos h]
  · exact spawnVehicles_length_le_max max_vehicles trial nv vs
  · intro steps
    induction steps generalizing vs with
    | nil => intro h; exact h
    | cons s rest ih =>
      intro h
      rw [List.foldl_cons]
      refine ih (spawnThenFilter max_vehicles s vs) ?_
      unfold spawnThenFilter
      exact le_trans (List.length_filter_le _ _)
        (spawnVehicles_length_le_max max_vehicles s.1.1 s.1.2 vs h)
  · intro n hn
    rw [spawnTicks_length supply n]
    omega

/-- Plain vehicle used by the spawn and despawn witnesses. -/
def demoVehicle : SimulatedVehicle :=
  { id := "d1"
  , vehicle_type := VehicleType.car
  , driver_profile := DriverProfile.normal
  , position := { lat := 0, lng := 0 }
  , heading := 0
  , current_speed := 10
  , target_speed := 50
  , current_segment_id := none
  , waiting_at_light := false
  , wait_time_seconds := 0 }

/-- C6 witness: starting empty, one forced-success spawn yields one
vehicle, and after 7 forced-success ticks the count has saturated
at exactly 5. -/
theorem spawn_phase_bounds_witness :
    (spawnVehicles 5 true demoVehicle []).length
      ≤ ([] : List SimulatedVehicle).length + 1
    ∧ (spawnTicks (fun _ => demoVehicle) 7).length = 5 :=
  ⟨(spawn_phase_bounds 5 true demoVehicle [] (fun _ => demoVehicle)).1,
    (spawn_phase_bounds 5 true demoVehicle [] (fun _ => demoVehicle)).2.2.2.2.2
      7 (by omega)⟩

/-- Bounding box of an external traffic snapshot, embedding
`BoundingBox` from `backend/app/models/traffic.py`. -/
structure BoundingBox where
  north : ℚ
  south : ℚ
  east : ℚ
  west : ℚ
deriving DecidableEq, Repr

/-- Membership test of `_remove_completed_vehicles` (engine.py lines
706-708): position inside the snapshot's box expanded by the margin. -/
def inSimulationBounds (bbox : BoundingBox) (margin : ℚ) (p : Coordinates) :
    Bool :=
  decide (bbox.south - margin ≤ p.lat) && decide (p.lat ≤ bbox.north + margin)
    && decide (bbox.west - margin ≤ p.lng)
    && decide (p.lng ≤ bbox.east + margin)

/-- Embedding of `SimulationEngine._remove_completed_vehicles`
(engine.py lines 693-719): with no ingested snapshot
(`self._real_traffic_data is None`) nothing happens; with a snapshot,
vehicles outside the box expanded by the 0.005 margin are dropped and
`max(0, removed)` is added to the completed counter. -/
def removeCompletedVehicles (real_data : Option BoundingBox)
    (vehicles : List SimulatedVehicle) (vehicles_completed : ℤ) :
    List SimulatedVehicle × ℤ :=
  match real_data with
  | none => (vehicles, vehicles_completed)
  | some bbox =>
    let margin : ℚ := 0.005
    let valid_vehicles :=
      vehicles.filter (fun v => inSimulationBounds bbox margin v.position)
    let removed : ℤ := (vehicles.length : ℤ) - (valid_vehicles.length : ℤ)
    (valid_vehicles, vehicles_completed + max 0 removed)

/-- C7: with a snapshot present the despawn phase keeps exactly the
in-bounds vehicles, adds the number removed to the completed counter,
and the completed counter never decreases (for any snapshot state). -/
theorem remove_completed_spec (bbox : BoundingBox)
    (vs : List SimulatedVehicle) (c : ℤ) :
    (∀ v ∈ vs,
      (v ∈ (removeCompletedVehicles (some bbox) vs c).1
        ↔ inSimulationBounds bbox 0.005 v.position = true))
    ∧ (removeCompletedVehicles (some bbox) vs c).2
        = c + ((vs.length : ℤ)
            - ((removeCompletedVehicles (some bbox) vs c).1.length : ℤ))
    ∧ (∀ rd : Option BoundingBox, c ≤ (removeCompletedVehicles rd vs c).2) := by
  refine ⟨?_, ?_, ?_⟩
  · intro v hv
    simp only [removeCompletedVehicles, List.mem_filter]
    exact ⟨fun h => h.2, fun h => ⟨hv, h⟩⟩
  · have hle : ((vs.filter
        (fun v => inSimulationBounds bbox 0.005 v.position)).length : ℤ)
        ≤ (vs.length : ℤ) := Int.ofNat_le.mpr (List.length_filter_le _ _)
    simp only [removeCompletedVehicles]
    rw [max_eq_right (by omega)]
  · intro rd
    match rd with
    | none => exact le_refl c
    | some b =>
      simp only [removeCompletedVehicles]
      have : (0 : ℤ) ≤ max 0 ((vs.length : ℤ)
          - ((vs.filter
            (fun v => inSimulationBounds b 0.005 v.position)).length : ℤ)) :=
        le_max_left 0 _
      omega

/-- Bounding box used by the despawn witness. -/
def demoBox : BoundingBox :=
  { north := 1, south := -1, east := 1, west := -1 }

/-- C7 witness: the despawn characterisation applied to a concrete
one-vehicle state with completed counter 3. -/
theorem remove_completed_spec_witness :
    (demoVehicle ∈ (removeCompletedVehicles (some demoBox) [demoVehicle] 3).1
      ↔ inSimulationBounds demoBox 0.005 demoVehicle.position = true)
    ∧ (3 : ℤ) ≤ (removeCompletedVehicles (some demoBox) [demoVehicle] 3).2 :=
  ⟨(remove_completed_spec demoBox [demoVehicle] 3).1 demoVehicle
      (List.mem_singleton.mpr rfl),
    (remove_completed_spec demoBox [demoVehicle] 3).2.2 (some demoBox)⟩

/-- C10: before any external traffic snapshot has been ingested
(`_real_traffic_data is None`), the despawn phase removes no vehicle
and leaves the completed counter unchanged, whatever the vehicle
positions. -/
theorem remove_completed_no_snapshot (vs : List SimulatedVehicle) (c : ℤ) :
    removeCompletedVehicles none vs c = (vs, c) := rfl

/-- One pass of the per-vehicle update phase of `tick` (engine.py lines
284-292): iterate over a snapshot (`list(self.state.vehicles)`) of the
vehicle list held in `cur`; a successful update (`some v2`) mutates
that vehicle in place (modelled as replacing the value at its id),
while an exception (`none`) removes exactly that vehicle from the
active set and the loop continues with the remaining snapshot entries.
The updater also receives the current vehicle list because
`_update_vehicle` reads other vehicles' fields. -/
def updateVehiclesPhase
    (upd : SimulatedVehicle → List SimulatedVehicle →
      Option SimulatedVehicle) :
    List SimulatedVehicle → List SimulatedVehicle → List SimulatedVehicle
  | [], cur => cur
  | v :: rest, cur =>
    match upd v cur with
    | some v2 =>
      updateVehiclesPhase upd rest
        (cur.map (fun w => if w.id = v.id then v2 else w))
    | none =>
      updateVehiclesPhase upd rest
        (cur.filter (fun w => decide (w.id ≠ v.id)))

/-- Dropping by an id that occurs nowhere in the list is a no-op. -/
theorem filter_ne_id_of_not_mem (x : String) (ls : List SimulatedVehicle)
    (h : ∀ w ∈ ls, w.id ≠ x) :
    ls.filter (fun w => decide (w.id ≠ x)) = ls := by
  induction ls with
  | nil => rfl
  | cons w rest ih =>
    rw [List.filter_cons_of_pos (by
        simpa using h w (List.mem_cons_self w rest)),
      ih (fun w2 hw2 => h w2 (List.mem_cons_of_mem w hw2))]

/-- Replacing at an id that occurs nowhere in the list is a no-op. -/
theorem map_replace_id_of_not_mem (x : String) (a : SimulatedVehicle)
    (ls : List SimulatedVehicle) (h : ∀ w ∈ ls, w.id ≠ x) :
    ls.map (fun w => if w.id = x then a else w) = ls := by
  induction ls with
  | nil => rfl
  | cons w rest ih =>
    simp only [List.map]
    rw [if_neg (h w (List.mem_cons_self w rest)),
      ih (fun w2 hw2 => h w2 (List.mem_cons_of_mem w hw2))]

/-- Invariant of the per-vehicle phase loop: with pairwise-distinct
vehicle ids, an updater that fails exactly on `bad_id` and otherwise
applies `f` turns `pre ++ todo` (with `pre` already processed and free
of `bad_id`) into `pre` plus the `f`-image of `todo` minus the failing
vehicle. -/
theorem update_phase_go (f : SimulatedVehicle → SimulatedVehicle)
    (bad_id : String) (hf : ∀ v, (f v).id = v.id) :
    ∀ (todo pre : List SimulatedVehicle),
      (pre.map (fun v => v.id) ++ todo.map (fun v => v.id)).Nodup →
      (∀ p ∈ pre, p.id ≠ bad_id) →
      updateVehiclesPhase
          (fun v _ => if v.id = bad_id then none else some (f v))
          todo (pre ++ todo)
        = pre ++ (todo.filter (fun v => decide (v.id ≠ bad_id))).map f := by
  intro todo
  induction todo with
  | nil =>
    intro pre _ _
    simp [updateVehiclesPhase]
  | cons v rest ih =>
    intro pre hnd hpre
    rw [List.map, List.nodup_append] at hnd
    obtain ⟨hp, hq, hd⟩ := hnd
    have hvr : v.id ∉ rest.map (fun v => v.id) := (List.nodup_cons.mp hq).1
    have hr : (rest.map (fun v => v.id)).Nodup := (List.nodup_cons.mp hq).2
    have hpre_ne_v : ∀ p ∈ pre, p.id ≠ v.id := by
      intro p hp2 heq
      refine hd (List.mem_map_of_mem (fun v => v.id) hp2) ?_
      rw [heq]
      exact List.mem_cons_self _ _
    have hrest_ne_v : ∀ w ∈ rest, w.id ≠ v.id := by
      intro w hw heq
      exact hvr (heq ▸ List.mem_map_of_mem (fun v => v.id) hw)
    rw [updateVehiclesPhase]
    by_cases hb : v.id = bad_id
    · rw [if_pos hb]
      have hcur : (pre ++ v :: rest).filter (fun w => decide (w.id ≠ v.id))
          = pre ++ rest := by
        rw [List.filter_append, filter_ne_id_of_not_mem v.id pre hpre_ne_v,
          List.filter_cons_of_neg (by simp), filter_ne_id_of_not_mem v.id
            rest hrest_ne_v]
      rw [hcur]
      rw [ih pre (by
          rw [List.nodup_append]
          refine ⟨hp, hr, ?_⟩
          intro a ha
          exact fun har => hd ha (List.mem_cons_of_mem v.id har)) hpre]
      rw [List.filter_cons_of_neg (by simp [hb])]
    · rw [if_neg hb]
      have hcur : (pre ++ v :: rest).map
            (fun w => if w.id = v.id then f v else w)
          = (pre ++ [f v]) ++ rest := by
        rw [List.map_append, map_replace_id_of_not_mem v.id (f v) pre
          hpre_ne_v, List.map_cons]
        have hhead : (if v.id = v.id then f v else v) = f v := if_pos rfl
        rw [hhead, map_replace_id_of_not_mem v.id (f v) rest hrest_ne_v,
          List.append_assoc, List.singleton_append]
      dsimp only
      rw [hcur]
      rw [ih (pre ++ [f v]) (by
          simp only [List.map_append, List.map, hf v]
          rw [List.append_assoc, List.singleton_append]
          rw [List.nodup_append]
          exact ⟨hp, hq, hd⟩) (by
          intro p hp2
          rcases List.mem_append.mp hp2 with h1 | h2
          · exact hpre p h1
          · rw [List.mem_singleton.mp h2, hf v]
            exact hb)]
      rw [List.filter_cons_of_pos (by simp [hb]), List.map_cons,
        List.append_assoc, List.singleton_append]

/-- C2: over a start-of-phase vehicle set with distinct ids, if
updating exactly the vehicle with id `bad_id` raises (the updater
returns `none` for it and `some (f v)` for every other vehicle), then
the phase removes exactly that vehicle and still applies the update
`f` to every other vehicle of the snapshot, in order. -/
theorem update_phase_evicts_only_failing
    (f : SimulatedVehicle → SimulatedVehicle) (bad_id : String)
    (vs : List SimulatedVehicle)
    (hnd : (vs.map (fun v => v.id)).Nodup)
    (hf : ∀ v, (f v).id = v.id) :
    updateVehiclesPhase
        (fun v _ => if v.id = bad_id then none else some (f v)) vs vs
      = (vs.filter (fun v => decide (v.id ≠ bad_id))).map f := by
  have h := update_phase_go f bad_id hf vs []
  simp only [List.map, List.nil_append] at h
  exact h hnd (fun p hp => absurd hp (List.not_mem_nil p))

/-- Vehicle "a" for the eviction witness. -/
def vehicleA : SimulatedVehicle := { demoVehicle with id := "a" }

/-- Vehicle "b" for the eviction witness (the one whose update fails). -/
def vehicleB : SimulatedVehicle := { demoVehicle with id := "b" }

/-- Vehicle "c" for the eviction witness. -/
def vehicleC : SimulatedVehicle := { demoVehicle with id := "c" }

/-- C2 witness: on the three-vehicle set a/b/c where updating "b"
fails, the phase keeps a and c (both updated) and drops exactly b. -/
theorem update_phase_evicts_witness :
    updateVehiclesPhase
        (fun v _ => if v.id = "b" then none
          else some { v with current_segment_id := some "s" })
        [vehicleA, vehicleB, vehicleC] [vehicleA, vehicleB, vehicleC]
      = ([vehicleA, vehicleB, vehicleC].filter
            (fun v => decide (v.id ≠ "b"))).map
          (fun v => { v with current_segment_id := some "s" }) :=
  update_phase_evicts_only_failing
    (fun v => { v with current_segment_id := some "s" }) ("b")
    [vehicleA, vehicleB, vehicleC] (by decide) (fun _ => rfl)

/-- Simulation configuration, embedding `SimulationConfig` from
`backend/app/models/traffic.py` (the fields the engine reads). -/
structure SimulationConfig where
  tick_interval_ms : ℚ
  max_vehicles : ℕ
  spawn_rate : ℚ
  base_acceleration : ℚ
  base_deceleration : ℚ
  min_following_distance : ℚ
deriving DecidableEq, Repr

/-- Driver-profile acceleration multipliers of `_update_vehicle`
(engine.py lines 441-447); all four profiles are in the table, so the
`.get(..., 1.0)` default is never taken. -/
def accelModifier : DriverProfile → ℚ
  | DriverProfile.aggressive => 1.3
  | DriverProfile.normal => 1
  | DriverProfile.cautious => 0.7
  | DriverProfile.learner => 0.5

/-- Every profile multiplier is positive. -/
theorem accelModifier_pos (p : DriverProfile) : 0 < accelModifier p := by
  cases p <;> norm_num [accelModifier]

/-- Membership test `vehicle.current_segment_id in
light.controlled_segment_ids` (a `None` segment id is in no list of
segment-id strings). -/
def segmentControlled (sid : Option String) (l : TrafficLight) : Bool :=
  match sid with
  | some s => decide (s ∈ l.controlled_segment_ids)
  | none => false

/-- Inner loop of `_can_proceed` over one intersection's lights: the
first controlling light decides (GREEN or not); `none` when no light
controls the vehicle's segment. -/
def canProceedLights (sid : Option String) : List TrafficLight → Option Bool
  | [] => none
  | l :: rest =>
    if segmentControlled sid l then
      some (decide (l.current_phase = TrafficLightPhase.GREEN))
    else canProceedLights sid rest

/-- Outer loop of `_can_proceed` over intersections. -/
def canProceedInters (sid : Option String) : List Intersection → Option Bool
  | [] => none
  | i :: rest =>
    match canProceedLights sid i.traffic_lights with
    | some b => some b
    | none => canProceedInters sid rest

/-- Embedding of `SimulationEngine._can_proceed` (engine.py lines
510-516): the first light controlling the vehicle's segment must be
GREEN; with no controlling light the vehicle may proceed. -/
def canProceed (inters : List Intersection) (v : SimulatedVehicle) : Bool :=
  (canProceedInters v.current_segment_id inters).getD true

/-- Embedding of `SimulationEngine._should_stop_at_light` (engine.py
lines 518-543): for each intersection within braking distance plus a
10 m buffer, stop if any of its lights controls the vehicle's segment
and is not GREEN. -/
def shouldStopAtLight (dist : Coordinates → Coordinates → ℚ)
    (cfg : SimulationConfig) (inters : List Intersection)
    (v : SimulatedVehicle) : Bool :=
  let base_decel :=
    if cfg.base_deceleration ≤ 0 then 4 else cfg.base_deceleration
  inters.any (fun i =>
    let distance := dist v.position i.location
    let stopping_distance :=
      if v.current_speed ≤ 0 then 0
      else v.current_speed ^ 2 / (2 * base_decel * 3.6)
    if distance < stopping_distance + 10 then
      i.traffic_lights.any (fun l =>
        segmentControlled v.current_segment_id l
          && decide (l.current_phase ≠ TrafficLightPhase.GREEN))
    else false)

/-- Incident-ceiling application of `_update_vehicle` (engine.py lines
417-421).  Python's `if incident_effect:` is falsy for `None` and for
an effect of exactly `0.0`, hence the `eff ≠ 0` guard. -/
def capByIncidents (dist : Coordinates → Coordinates → ℚ)
    (incidents : List TrafficIncident) (v : SimulatedVehicle) :
    SimulatedVehicle :=
  match getIncidentEffect dist incidents v with
  | some eff =>
    if eff ≠ 0 then { v with target_speed := min v.target_speed eff } else v
  | none => v

/-- Following-distance cap of `_update_vehicle` (engine.py lines
423-435); `ahead` is the result of `_find_vehicle_ahead`. -/
def capByAhead (dist : Coordinates → Coordinates → ℚ)
    (ahead : Option SimulatedVehicle) (v : SimulatedVehicle) :
    SimulatedVehicle :=
  match ahead with
  | some a =>
    let safe_distance := v.current_speed / 3.6 * 2
    let actual_distance := dist v.position a.position * 111000
    if actual_distance < safe_distance then
      { v with target_speed := min v.target_speed (a.current_speed * 0.9) }
    else v
  | none => v

/-- Acceleration/deceleration step of `_update_vehicle` (engine.py
lines 437-469): move `current_speed` toward `target_speed`, the rate
scaled by the profile multiplier (and, when accelerating, by the
high-speed attenuation factor), clamped at the target. -/
def accelerateToward (cfg : SimulationConfig) (dt : ℚ)
    (v : SimulatedVehicle) : SimulatedVehicle :=
  let speed_diff := v.target_speed - v.current_speed
  let accel_mod := accelModifier v.driver_profile
  let speed_factor := max 0.1 (1 - v.current_speed / 120 * 0.3)
  if 0 < speed_diff then
    { v with current_speed := (min v.target_speed (v.current_speed
        + cfg.base_acceleration * accel_mod * speed_factor * dt * 3.6)) }
  else if speed_diff < 0 then
    { v with current_speed := (max v.target_speed (v.current_speed
        - cfg.base_deceleration * accel_mod * dt * 3.6)) }
  else v

/-- Embedding of `SimulationEngine._update_vehicle` (engine.py lines
408-508).  A waiting vehicle only accumulates wait time and re-checks
its light; otherwise the target is capped by incidents and the vehicle
ahead, the speed moves toward the target, and either the vehicle halts
at a controlling non-GREEN light (speed zeroed, waiting set) or its
position is integrated.  The trigonometric position integration of
lines 477-508 touches only `position` and is abstracted as
`integrate`. -/
def updateVehicle (cfg : SimulationConfig)
    (dist : Coordinates → Coordinates → ℚ)
    (incidents : List TrafficIncident) (inters : List Intersection)
    (ahead : Option SimulatedVehicle)
    (integrate : SimulatedVehicle → ℚ → Coordinates)
    (dt : ℚ) (v : SimulatedVehicle) : SimulatedVehicle :=
  if v.waiting_at_light then
    let v1 := { v with wait_time_seconds := v.wait_time_seconds + dt }
    if canProceed inters v1 then { v1 with waiting_at_light := false }
    else v1
  else
    let v1 := capByIncidents dist incidents v
    let v2 := capByAhead dist ahead v1
    let v3 := accelerateToward cfg dt v2
    if shouldStopAtLight dist cfg inters v3 then
      { v3 with waiting_at_light := true, current_speed := 0 }
    else { v3 with position := integrate v3 dt }

/-- The reduction table never exceeds 1 and is never negative. -/
theorem speedReduction_bounds (t : String) :
    0 ≤ speedReduction t ∧ speedReduction t ≤ 1 := by
  unfold speedReduction
  split_ifs <;> norm_num

/-- Every influence radius is positive. -/
theorem impactRadius_pos (t : String) : 0 < impactRadius t := by
  unfold impactRadius
  split_ifs <;> norm_num

/-- One incident-loop step keeps the running ceiling non-negative when
the vehicle's target speed and all distances are non-negative. -/
theorem incidentStep_nonneg (dist : Coordinates → Coordinates → ℚ)
    (v : SimulatedVehicle) (ht : 0 ≤ v.target_speed)
    (hd : ∀ p q, 0 ≤ dist p q) (acc : Option ℚ)
    (hacc : ∀ m, acc = some m → 0 ≤ m) (inc : TrafficIncident) :
    ∀ m, incidentStep dist v acc inc = some m → 0 ≤ m := by
  intro m hm
  unfold incidentStep at hm
  by_cases hrad : dist v.position inc.location < impactRadius inc.type
  · rw [if_pos hrad] at hm
    have hrpos := impactRadius_pos inc.type
    have hd0 := hd v.position inc.location
    have hred := speedReduction_bounds inc.type
    have hdf1 : 1 - dist v.position inc.location / impactRadius inc.type ≤ 1 := by
      have : 0 ≤ dist v.position inc.location / impactRadius inc.type :=
        div_nonneg hd0 hrpos.le
      linarith
    have hdf0 : 0 ≤ 1 - dist v.position inc.location / impactRadius inc.type := by
      have : dist v.position inc.location / impactRadius inc.type < 1 :=
        (div_lt_one hrpos).mpr hrad
      linarith
    have haff : 0 ≤ v.target_speed * (1 - speedReduction inc.type
        * (1 - dist v.position inc.location / impactRadius inc.type)) := by
      refine mul_nonneg ht ?_
      nlinarith [hred.1, hred.2, hdf0, hdf1]
    cases hacc2 : acc with
    | none =>
      rw [hacc2] at hm
      dsimp only at hm
      rw [← Option.some_inj.mp hm]
      exact haff
    | some m0 =>
      rw [hacc2] at hm
      dsimp only at hm
      have hm0 := hacc m0 hacc2
      split_ifs at hm with hlt
      · rw [← Option.some_inj.mp hm]
        exact haff
      · rw [← Option.some_inj.mp hm]
        exact hm0
  · rw [if_neg hrad] at hm
    exact hacc m hm

/-- `_get_incident_effect` never imposes a negative ceiling when the
vehicle's target speed and all distances are non-negative. -/
theorem getIncidentEffect_nonneg (dist : Coordinates → Coordinates → ℚ)
    (incidents : List TrafficIncident) (v : SimulatedVehicle)
    (ht : 0 ≤ v.target_speed) (hd : ∀ p q, 0 ≤ dist p q) :
    ∀ m, getIncidentEffect dist incidents v = some m → 0 ≤ m := by
  have go : ∀ (ls : List TrafficIncident) (acc : Option ℚ),
      (∀ m, acc = some m → 0 ≤ m) →
      ∀ m, ls.foldl (incidentStep dist v) acc = some m → 0 ≤ m := by
    intro ls
    induction ls with
    | nil => intro acc hacc m hm; exact hacc m hm
    | cons inc rest ih =>
      intro acc hacc m hm
      rw [List.foldl_cons] at hm
      exact ih (incidentStep dist v acc inc)
        (incidentStep_nonneg dist v ht hd acc hacc inc) m hm
  exact go incidents none (fun m hm => nomatch hm)

/-- The incident cap changes only the target speed. -/
theorem capByIncidents_fields (dist : Coordinates → Coordinates → ℚ)
    (incidents : List TrafficIncident) (v : SimulatedVehicle) :
    (capByIncidents dist incidents v).current_speed = v.current_speed
    ∧ (capByIncidents dist incidents v).driver_profile = v.driver_profile := by
  unfold capByIncidents
  cases getIncidentEffect dist incidents v with
  | none => exact ⟨rfl, rfl⟩
  | some eff =>
    dsimp only
    split_ifs <;> exact ⟨rfl, rfl⟩

/-- The incident cap keeps the target speed non-negative. -/
theorem capByIncidents_target_nonneg (dist : Coordinates → Coordinates → ℚ)
    (incidents : List TrafficIncident) (v : SimulatedVehicle)
    (ht : 0 ≤ v.target_speed) (hd : ∀ p q, 0 ≤ dist p q) :
    0 ≤ (capByIncidents dist incidents v).target_speed := by
  unfold capByIncidents
  cases hEff : getIncidentEffect dist incidents v with
  | none => exact ht
  | some eff =>
    dsimp only
    split_ifs
    · exact le_min ht (getIncidentEffect_nonneg dist incidents v ht hd eff hEff)
    · exact ht

/-- The following-distance cap changes only the target speed. -/
theorem capByAhead_fields (dist : Coordinates → Coordinates → ℚ)
    (ahead : Option SimulatedVehicle) (v : SimulatedVehicle) :
    (capByAhead dist ahead v).current_speed = v.current_speed
    ∧ (capByAhead dist ahead v).driver_profile = v.driver_profile := by
  unfold capByAhead
  cases ahead with
  | none => exact ⟨rfl, rfl⟩
  | some a =>
    dsimp only
    split_ifs <;> exact ⟨rfl, rfl⟩

/-- The following-distance cap keeps the target speed non-negative
when the vehicle ahead has non-negative speed. -/
theorem capByAhead_target_nonneg (dist : Coordinates → Coordinates → ℚ)
    (ahead : Option SimulatedVehicle) (v : SimulatedVehicle)
    (ht : 0 ≤ v.target_speed)
    (hahead : ∀ a, ahead = some a → 0 ≤ a.current_speed) :
    0 ≤ (capByAhead dist ahead v).target_speed := by
  unfold capByAhead
  cases hA : ahead with
  | none => exact ht
  | some a =>
    dsimp only
    split_ifs
    · exact le_min ht (mul_nonneg (hahead a hA) (by norm_num))
    · exact ht

/-- Bounds of the acceleration/deceleration step: the new speed is
non-negative, rises by at most the configured acceleration (scaled by
the profile multiplier, per-tick, in km/h) and falls by at most the
configured deceleration (likewise scaled). -/
theorem accelerateToward_bounds (cfg : SimulationConfig) (dt : ℚ)
    (v : SimulatedVehicle) (hdt : 0 ≤ dt) (hcs : 0 ≤ v.current_speed)
    (ht : 0 ≤ v.target_speed) (haccel : 0 ≤ cfg.base_acceleration)
    (hdecel : 0 ≤ cfg.base_deceleration) :
    0 ≤ (accelerateToward cfg dt v).current_speed
    ∧ (accelerateToward cfg dt v).current_speed
        ≤ v.current_speed
          + cfg.base_acceleration * accelModifier v.driver_profile * dt * 3.6
    ∧ v.current_speed
        - cfg.base_deceleration * accelModifier v.driver_profile * dt * 3.6
        ≤ (accelerateToward cfg dt v).current_speed := by
  have hmod : (0 : ℚ) < accelModifier v.driver_profile := accelModifier_pos _
  have hsf0 : (0 : ℚ) < max 0.1 (1 - v.current_speed / 120 * 0.3) :=
    lt_of_lt_of_le (by norm_num) (le_max_left _ _)
  have hsf1 : max 0.1 (1 - v.current_speed / 120 * 0.3) ≤ 1 := by
    apply max_le (by norm_num)
    nlinarith
  have hAb : 0 ≤ cfg.base_acceleration * accelModifier v.driver_profile
      * dt * 3.6 :=
    mul_nonneg (mul_nonneg (mul_nonneg haccel hmod.le) hdt) (by norm_num)
  have hDb : 0 ≤ cfg.base_deceleration * accelModifier v.driver_profile
      * dt * 3.6 :=
    mul_nonneg (mul_nonneg (mul_nonneg hdecel hmod.le) hdt) (by norm_num)
  have hA0 : 0 ≤ cfg.base_acceleration * accelModifier v.driver_profile
      * max 0.1 (1 - v.current_speed / 120 * 0.3) * dt * 3.6 :=
    mul_nonneg (mul_nonneg (mul_nonneg
      (mul_nonneg haccel hmod.le) hsf0.le) hdt) (by norm_num)
  have hAle : cfg.base_acceleration * accelModifier v.driver_profile
      * max 0.1 (1 - v.current_speed / 120 * 0.3) * dt * 3.6
      ≤ cfg.base_acceleration * accelModifier v.driver_profile * dt * 3.6 := by
    nlinarith [mul_nonneg (mul_nonneg haccel hmod.le) hdt, hsf0, hsf1]
  unfold accelerateToward
  dsimp only
  split_ifs with h1 h2
  · dsimp only
    refine ⟨?_, ?_, ?_⟩
    · exact le_min (by linarith) (by linarith)
    · exact le_trans (min_le_right _ _) (by linarith)
    · exact le_min (by linarith) (by linarith)
  · dsimp only
    refine ⟨?_, ?_, ?_⟩
    · exact le_trans ht (le_max_left _ _)
    · exact max_le (by linarith) (by linarith)
    · exact le_max_right _ _
  · exact ⟨hcs, by linarith, by linarith⟩

/-- C4 (amended): in every per-vehicle update step the new
`current_speed` is non-negative, it rises by at most the configured
acceleration scaled by the profile multiplier and converted to a
per-tick km/h delta, and it falls by at most the corresponding
deceleration bound, except that a vehicle halting at a controlling
non-GREEN light has its speed set to exactly 0 (with the waiting flag
raised). -/
theorem update_vehicle_speed_bounds (cfg : SimulationConfig)
    (dist : Coordinates → Coordinates → ℚ)
    (incidents : List TrafficIncident) (inters : List Intersection)
    (ahead : Option SimulatedVehicle)
    (integrate : SimulatedVehicle → ℚ → Coordinates) (dt : ℚ)
    (v : SimulatedVehicle)
    (hdt : 0 ≤ dt) (hcs : 0 ≤ v.current_speed) (hts : 0 ≤ v.target_speed)
    (haccel : 0 ≤ cfg.base_acceleration)
    (hdecel : 0 ≤ cfg.base_deceleration)
    (hdist : ∀ p q, 0 ≤ dist p q)
    (hahead : ∀ a, ahead = some a → 0 ≤ a.current_speed) :
    0 ≤ (updateVehicle cfg dist incidents inters ahead integrate dt
          v).current_speed
    ∧ (updateVehicle cfg dist incidents inters ahead integrate dt
          v).current_speed
        ≤ v.current_speed
          + cfg.base_acceleration * accelModifier v.driver_profile * dt * 3.6
    ∧ (v.current_speed
          - cfg.base_deceleration * accelModifier v.driver_profile * dt * 3.6
          ≤ (updateVehicle cfg dist incidents inters ahead integrate dt
              v).current_speed
      ∨ ((updateVehicle cfg dist incidents inters ahead integrate dt
            v).current_speed = 0
          ∧ (updateVehicle cfg dist incidents inters ahead integrate dt
              v).waiting_at_light = true)) := by
  have hmod : (0 : ℚ) < accelModifier v.driver_profile := accelModifier_pos _
  have hAb : 0 ≤ cfg.base_acceleration * accelModifier v.driver_profile
      * dt * 3.6 :=
    mul_nonneg (mul_nonneg (mul_nonneg haccel hmod.le) hdt) (by norm_num)
  have hDb : 0 ≤ cfg.base_deceleration * accelModifier v.driver_profile
      * dt * 3.6 :=
    mul_nonneg (mul_nonneg (mul_nonneg hdecel hmod.le) hdt) (by norm_num)
  unfold updateVehicle
  by_cases hw : v.waiting_at_light = true
  · rw [if_pos hw]
    dsimp only
    split <;>
      exact ⟨hcs, by dsimp only; linarith, Or.inl (by dsimp only; linarith)⟩
  · rw [if_neg hw]
    have h1f := capByIncidents_fields dist incidents v
    have h1t := capByIncidents_target_nonneg dist incidents v hts hdist
    have h2f := capByAhead_fields dist ahead (capByIncidents dist incidents v)
    have h2t := capByAhead_target_nonneg dist ahead
      (capByIncidents dist incidents v) h1t hahead
    have hstep := accelerateToward_bounds cfg dt
      (capByAhead dist ahead (capByIncidents dist incidents v)) hdt
      (by rw [h2f.1, h1f.1]; exact hcs) h2t haccel hdecel
    rw [h2f.1, h1f.1, h2f.2, h1f.2] at hstep
    dsimp only
    split
    · exact ⟨le_refl 0, by dsimp only; linarith, Or.inr ⟨rfl, rfl⟩⟩
    · exact ⟨hstep.1, hstep.2.1, Or.inl hstep.2.2⟩

/-- Defaults of `SimulationConfig` in
`backend/app/models/traffic.py` (lines 240-258). -/
def defaultConfig : SimulationConfig :=
  { tick_interval_ms := 100
  , max_vehicles := 500
  , spawn_rate := 0.5
  , base_acceleration := 2
  , base_deceleration := 4
  , min_following_distance := 5 }

/-- RED light controlling segment "s1", for the halting scenario. -/
def redLightS : TrafficLight :=
  { id := "LS"
  , location := { lat := 0, lng := 0 }
  , current_phase := TrafficLightPhase.RED
  , green_duration := 30
  , yellow_duration := 5
  , red_duration := 30
  , time_in_current_phase := 0
  , controlled_segment_ids := ["s1"] }

/-- Intersection holding the RED light, at the vehicle's location. -/
def stopIntersection : Intersection :=
  { id := "I2", location := { lat := 0, lng := 0 }
  , traffic_lights := [redLightS] }

/-- Vehicle cruising at 100 km/h on segment "s1", at the
intersection. -/
def fastVehicle : SimulatedVehicle :=
  { id := "vf"
  , vehicle_type := VehicleType.car
  , driver_profile := DriverProfile.normal
  , position := { lat := 0, lng := 0 }
  , heading := 0
  , current_speed := 100
  , target_speed := 100
  , current_segment_id := some "s1"
  , waiting_at_light := false
  , wait_time_seconds := 0 }

/-- C4 counterexample: a vehicle at 100 km/h that reaches a
controlling non-GREEN light has its speed set to 0 in one step
(engine.py line 474), a drop of 100 km/h, far beyond the configured
per-tick deceleration bound `4 * 1 * 0.1 * 3.6 = 1.44` km/h, so the
claim's deceleration limit does not hold as stated. -/
theorem update_vehicle_decel_limit_counterexample :
    (updateVehicle defaultConfig (fun _ _ => 0) [] [stopIntersection] none
        (fun w _ => w.position) 0.1 fastVehicle).current_speed = 0
    ∧ defaultConfig.base_deceleration
        * accelModifier fastVehicle.driver_profile * (0.1 : ℚ) * 3.6
      < fastVehicle.current_speed
        - (updateVehicle defaultConfig (fun _ _ => 0) [] [stopIntersection]
            none (fun w _ => w.position) 0.1 fastVehicle).current_speed := by
  have h3 : accelerateToward defaultConfig 0.1 fastVehicle = fastVehicle := by
    unfold accelerateToward
    norm_num [fastVehicle]
  have h4 : shouldStopAtLight (fun _ _ => 0) defaultConfig [stopIntersection]
      fastVehicle = true := by
    unfold shouldStopAtLight
    norm_num [stopIntersection, redLightS, fastVehicle, defaultConfig,
      segmentControlled, List.any_cons, List.any_nil]
    decide
  have hupd : updateVehicle defaultConfig (fun _ _ => 0) [] [stopIntersection]
      none (fun w _ => w.position) 0.1 fastVehicle
      = { fastVehicle with waiting_at_light := true, current_speed := 0 } := by
    unfold updateVehicle
    rw [if_neg (by decide)]
    dsimp only
    have h1 : capByIncidents (fun _ _ => 0) [] fastVehicle = fastVehicle := rfl
    have h2 : capByAhead (fun _ _ => 0) none fastVehicle = fastVehicle := rfl
    rw [h1, h2, h3, if_pos h4]
  rw [hupd]
  constructor
  · rfl
  · norm_num [fastVehicle, defaultConfig, accelModifier]

/-- C4 witness: the amended speed bounds applied to the concrete
10 km/h vehicle with no incidents, no lights and no vehicle ahead. -/
theorem update_vehicle_speed_bounds_witness :
    0 ≤ (updateVehicle defaultConfig (fun _ _ => 0) [] [] none
        (fun w _ => w.position) 0.1 demoVehicle).current_speed
    ∧ (updateVehicle defaultConfig (fun _ _ => 0) [] [] none
        (fun w _ => w.position) 0.1 demoVehicle).current_speed
      ≤ demoVehicle.current_speed
        + defaultConfig.base_acceleration
          * accelModifier demoVehicle.driver_profile * (0.1 : ℚ) * 3.6 :=
  ⟨(update_vehicle_speed_bounds defaultConfig (fun _ _ => 0) [] [] none
      (fun w _ => w.position) 0.1 demoVehicle (by norm_num)
      (by norm_num [demoVehicle]) (by norm_num [demoVehicle])
      (by norm_num [defaultConfig]) (by norm_num [defaultConfig])
      (fun p q => le_refl 0) (fun a ha => nomatch ha)).1,
    (update_vehicle_speed_bounds defaultConfig (fun _ _ => 0) [] [] none
      (fun w _ => w.position) 0.1 demoVehicle (by norm_num)
      (by norm_num [demoVehicle]) (by norm_num [demoVehicle])
      (by norm_num [defaultConfig]) (by norm_num [defaultConfig])
      (fun p q => le_refl 0) (fun a ha => nomatch ha)).2.1⟩

end TrafficSim
